import Mathlib

/-!
Shallow embedding of `llama_stack/providers/remote/inference/fireworks/fireworks.py`
(the Fireworks inference adapter) and proofs about its request-shaping logic.

Python dictionaries are modelled as insertion-ordered association lists
(`Params`); Python strings as Lean `String`, with `str.startswith` and slicing
mirrored on the code-point sequence `String.data` (Python `str` indexing is by
code point). Functions that can `raise` return `Except PyError`. Collaborator
functions that live outside this file's source (`request_has_media`,
`get_sampling_options`, the prompt renderers, `convert_message_to_dict`) are
modelled from the spec and marked as such.
-/

namespace FireworksAdapter

/-- JSON-like values, the payload values of the provider call dictionaries. -/
inductive JValue where
  | null
  | bool (b : Bool)
  | num (n : Int)
  | str (s : String)
  | arr (vs : List JValue)
  | obj (fields : List (String × JValue))

/-- A Python dict with string keys, as an insertion-ordered association list. -/
abbrev Params := List (String × JValue)

/-- Python `k in d`. -/
def dictContains (d : Params) (k : String) : Bool :=
  d.any fun kv => kv.1 == k

/-- Python `d[k]` (as an `Option`, `none` when the key is absent). -/
def dictGet (d : Params) (k : String) : Option JValue :=
  (d.find? fun kv => kv.1 == k).map (·.2)

/-- Python `d[k] = v`: replace the value at an existing key, else append. -/
def dictInsert (d : Params) (k : String) (v : JValue) : Params :=
  if d.any fun kv => kv.1 == k then
    d.map fun kv => if kv.1 == k then (k, v) else kv
  else
    d ++ [(k, v)]

/-- Python `d.setdefault(k, v)`. -/
def dictSetdefault (d : Params) (k : String) (v : JValue) : Params :=
  if d.any fun kv => kv.1 == k then d else d ++ [(k, v)]

/-- A Python dict display `{k1: v1, **rest}`: keys inserted left to right into
an empty dict, later occurrences of a key overwriting earlier ones. -/
def pyDict (entries : Params) : Params :=
  entries.foldl (fun d kv => dictInsert d kv.1 kv.2) []

/-- Python exceptions raised by the adapter. The spec's error taxonomy maps onto
these as: `MissingCredentialError` and `UnsupportedResponseFormatError` are the
two `ValueError` sites, `UnsupportedMediaError` is the `AssertionError` of the
completion-with-media assert, and `NotSupportedError` is `NotImplementedError`. -/
inductive PyError where
  | valueError (msg : String)
  | assertionError (msg : String)
  | notImplementedError
deriving DecidableEq, Repr

/-- One segment of interleaved text/media content. -/
inductive ContentItem where
  | text (s : String)
  | image (url : String)
deriving DecidableEq, Repr

/-- A chat message: a role and interleaved content. -/
structure Message where
  role : String
  content : List ContentItem
deriving DecidableEq, Repr

/-- Normalized sampling configuration (`SamplingParams`): each field is `none`
when the caller did not specify it. -/
structure SamplingParams where
  temperature : Option Int := none
  top_p : Option Int := none
  top_k : Option Int := none
  max_tokens : Option Int := none
  repetition_penalty : Option Int := none
deriving DecidableEq, Repr

/-- A response-format object as the source reads it: a tag string `type` plus
the `json_schema` / `bnf` payload fields (the source dispatches on the string
`fmt.type`, with a catch-all error branch for unknown tags). -/
structure ResponseFormatData where
  type : String
  json_schema : JValue := JValue.null
  bnf : JValue := JValue.null

/-- Modelled from the spec: the tag string of the `json_schema` variant of the
`ResponseFormat` tagged union (`ResponseFormatType.json_schema.value`, declared
outside this repository slice). -/
def jsonSchemaFormatValue : String := "json_schema"

/-- Modelled from the spec: the tag string of the `grammar` variant of the
`ResponseFormat` tagged union (`ResponseFormatType.grammar.value`). -/
def grammarFormatValue : String := "grammar"

/-- A `CompletionRequest`: `model` is the already-resolved provider resource id. -/
structure CompletionRequest where
  model : String
  content : List ContentItem
  sampling_params : Option SamplingParams := some {}
  response_format : Option ResponseFormatData := none
  stream : Bool := false
  logprobs : Option Nat := none

/-- A `ChatCompletionRequest`: `model` is the already-resolved provider resource id. -/
structure ChatCompletionRequest where
  model : String
  messages : List Message
  sampling_params : Option SamplingParams := some {}
  tools : List String := []
  tool_choice : String := "auto"
  tool_prompt_format : String := "json"
  response_format : Option ResponseFormatData := none
  stream : Bool := false
  logprobs : Option Nat := none

/-- The sum of the two request kinds handled by `_get_params`. -/
inductive GenRequest where
  | completion (r : CompletionRequest)
  | chat (r : ChatCompletionRequest)

/-- Field `model` of either request kind. -/
def GenRequest.model : GenRequest → String
  | .completion r => r.model
  | .chat r => r.model

/-- Field `stream` of either request kind. -/
def GenRequest.stream : GenRequest → Bool
  | .completion r => r.stream
  | .chat r => r.stream

/-- Field `sampling_params` of either request kind. -/
def GenRequest.sampling_params : GenRequest → Option SamplingParams
  | .completion r => r.sampling_params
  | .chat r => r.sampling_params

/-- Field `response_format` of either request kind. -/
def GenRequest.response_format : GenRequest → Option ResponseFormatData
  | .completion r => r.response_format
  | .chat r => r.response_format

/-- Modelled from the spec: whether any segment of a content list is non-text
media (`prompt_adapter.request_has_media` helper, outside this source slice). -/
def content_has_media (content : List ContentItem) : Bool :=
  content.any fun
    | .text _ => false
    | .image _ => true

/-- Modelled from the spec: `request_has_media(request)` — true when any
content segment of the request is non-text media. -/
def request_has_media : GenRequest → Bool
  | .completion r => content_has_media r.content
  | .chat r => r.messages.any fun m => content_has_media m.content

/-- Modelled from the spec: flattening interleaved content into a single string
(text segments concatenated; only applied on media-free content). -/
def flattenContent (content : List ContentItem) : String :=
  String.join (content.map fun
    | .text s => s
    | .image _ => "")

/-- The beginning-of-sequence marker token the provider's endpoint re-adds. -/
def bosMarker : String := "<|begin_of_text|>"

/-- Modelled from the spec: `completion_request_to_prompt` renders the content
directly into a flattened prompt string; the rendering applies the model's
template, which prepends the beginning-of-sequence marker. -/
def completion_request_to_prompt (r : CompletionRequest) : String :=
  bosMarker ++ flattenContent r.content

/-- Modelled from the spec: `chat_completion_request_to_prompt` applies the
model's chat template to the message sequence, producing one flattened prompt
string beginning with the beginning-of-sequence marker. -/
def chat_completion_request_to_prompt (r : ChatCompletionRequest) : String :=
  bosMarker ++ String.join (r.messages.map fun m =>
    "<|start_header_id|>" ++ m.role ++ "<|end_header_id|>\n\n" ++
      flattenContent m.content ++ "<|eot_id|>")

/-- Modelled from the spec: `convert_message_to_dict` renders one message into
the provider's message-dict form (role plus typed content parts). -/
def convert_message_to_dict (m : Message) : JValue :=
  .obj [("role", .str m.role),
        ("content", .arr (m.content.map fun
          | .text s => .obj [("type", .str "text"), ("text", .str s)]
          | .image url => .obj [("type", .str "image_url"),
                                ("image_url", .obj [("url", .str url)])]))]

/-- Modelled from the spec: `get_sampling_options` maps each sampling parameter
the caller explicitly set to the provider option of the same name, and emits
nothing for unset parameters. -/
def get_sampling_options (params : Option SamplingParams) : Params :=
  match params with
  | none => []
  | some p =>
    (match p.temperature with
     | some t => [("temperature", JValue.num t)]
     | none => []) ++
    (match p.top_p with
     | some v => [("top_p", JValue.num v)]
     | none => []) ++
    (match p.top_k with
     | some v => [("top_k", JValue.num v)]
     | none => []) ++
    (match p.max_tokens with
     | some v => [("max_tokens", JValue.num v)]
     | none => []) ++
    (match p.repetition_penalty with
     | some v => [("repetition_penalty", JValue.num v)]
     | none => [])

/-- Embedding of `FireworksInferenceAdapter._build_options` (lines 148-168). -/
def build_options (sampling_params : Option SamplingParams)
    (fmt : Option ResponseFormatData) : Except PyError Params := do
  let options := get_sampling_options sampling_params
  let options := dictSetdefault options "max_tokens" (.num 512)
  match fmt with
  | none => pure options
  | some f =>
    if f.type = jsonSchemaFormatValue then
      pure (dictInsert options "response_format"
        (.obj [("type", .str "json_object"), ("schema", f.json_schema)]))
    else if f.type = grammarFormatValue then
      pure (dictInsert options "response_format"
        (.obj [("type", .str "grammar"), ("grammar", f.bnf)]))
    else
      throw (.valueError ("Unknown response format " ++ f.type))

/-- Embedding of lines 252-253: strip the beginning-of-sequence marker once if
the prompt literally starts with it (Python `p.startswith(marker)` then
`p[len(marker):]`, code-point-wise). -/
def stripLeadingBos (p : String) : String :=
  if bosMarker.data.isPrefixOf p.data then
    String.mk (p.data.drop bosMarker.length)
  else
    p

/-- Embedding of `FireworksInferenceAdapter._get_params` (lines 229-260). -/
def get_params (request : GenRequest) : Except PyError Params := do
  let input_dict : Params ←
    match request with
    | .chat r =>
      if request_has_media request then
        pure (dictInsert [] "messages"
          (.arr (r.messages.map convert_message_to_dict)))
      else
        pure (dictInsert [] "prompt"
          (.str (chat_completion_request_to_prompt r)))
    | .completion r =>
      if request_has_media request then
        throw (.assertionError
          "Fireworks does not support media for Completion requests")
      else
        pure (dictInsert [] "prompt" (.str (completion_request_to_prompt r)))
  let input_dict :=
    match dictGet input_dict "prompt" with
    | some (.str p) => dictInsert input_dict "prompt" (.str (stripLeadingBos p))
    | _ => input_dict
  let options ← build_options request.sampling_params request.response_format
  pure (pyDict ([("model", .str request.model)] ++ input_dict ++
    [("stream", .bool request.stream)] ++ options))

/-- Static adapter configuration (`FireworksImplConfig`). -/
structure FireworksImplConfig where
  url : String := "https://api.fireworks.ai/inference"
  api_key : Option String := none
deriving DecidableEq, Repr

/-- Per-request ambient provider data (`fireworks_api_key` may be absent or
empty; Python truthiness treats both as missing). -/
structure ProviderData where
  fireworks_api_key : Option String := none
deriving DecidableEq, Repr

/-- The remediation message of the missing-credential `ValueError`: it names the
header `X-LlamaStack-ProviderData` and the field `fireworks_api_key` to supply. -/
def missingKeyMessage : String :=
  "Pass Fireworks API Key in the header X-LlamaStack-ProviderData as \x7b \"fireworks_api_key\": <your api key>\x7d"

/-- Embedding of `FireworksInferenceAdapter._get_client` (lines 92-103): the
resolved API key the fresh per-call client is constructed with, or the
missing-credential error. -/
def get_client (config : FireworksImplConfig)
    (provider_data : Option ProviderData) : Except PyError String :=
  if h : config.api_key.isSome then
    .ok (config.api_key.get h)
  else
    match provider_data with
    | none => .error (.valueError missingKeyMessage)
    | some pd =>
      match pd.fireworks_api_key with
      | none => .error (.valueError missingKeyMessage)
      | some k =>
        if k = "" then .error (.valueError missingKeyMessage) else .ok k

/-- The two provider endpoints the dispatcher can call. -/
inductive Endpoint where
  | completionCreate
  | chatCompletionsCreate
deriving DecidableEq, Repr

/-- The single provider call a dispatch path issues: which endpoint, with which
api key and payload. A dispatcher returning `Except.error` issued no call. -/
structure ProviderCall where
  endpoint : Endpoint
  api_key : String
  params : Params

/-- Embedding of `_nonstream_completion` (lines 128-133): build params, then
construct the client (credential resolution), then issue one blocking call. -/
def nonstream_completion (config : FireworksImplConfig)
    (provider_data : Option ProviderData) (request : CompletionRequest) :
    Except PyError ProviderCall := do
  let params ← get_params (.completion request)
  let key ← get_client config provider_data
  pure { endpoint := .completionCreate, api_key := key, params := params }

/-- Embedding of `_stream_completion` (lines 135-146). The Python function is an
async generator: calling it returns the lazy sequence at once, and its body —
params building, client construction, the streaming call — only runs when the
sequence is first iterated. The thunk models that deferral; forcing it yields
the call made (or the error raised) at first iteration. -/
def stream_completion (config : FireworksImplConfig)
    (provider_data : Option ProviderData) (request : CompletionRequest) :
    Unit → Except PyError ProviderCall :=
  fun _ => do
    let params ← get_params (.completion request)
    let key ← get_client config provider_data
    pure { endpoint := .completionCreate, api_key := key, params := params }

/-- Embedding of `_nonstream_chat_completion` (lines 200-208): the structured
messages endpoint exactly when the built payload carries `"messages"`. -/
def nonstream_chat_completion (config : FireworksImplConfig)
    (provider_data : Option ProviderData) (request : ChatCompletionRequest) :
    Except PyError ProviderCall := do
  let params ← get_params (.chat request)
  if dictContains params "messages" then
    let key ← get_client config provider_data
    pure { endpoint := .chatCompletionsCreate, api_key := key, params := params }
  else
    let key ← get_client config provider_data
    pure { endpoint := .completionCreate, api_key := key, params := params }

/-- Embedding of `_stream_chat_completion` (lines 210-227), an async generator
like `_stream_completion`: the thunk models the deferral of its whole body to
the first iteration of the returned sequence. -/
def stream_chat_completion (config : FireworksImplConfig)
    (provider_data : Option ProviderData) (request : ChatCompletionRequest) :
    Unit → Except PyError ProviderCall :=
  fun _ => do
    let params ← get_params (.chat request)
    if dictContains params "messages" then
      let key ← get_client config provider_data
      pure { endpoint := .chatCompletionsCreate, api_key := key, params := params }
    else
      let key ← get_client config provider_data
      pure { endpoint := .completionCreate, api_key := key, params := params }

/-- What a public entry point hands back: a non-streaming path returns the
completed (or failed) call at once; a streaming path returns the lazy sequence,
whose first forced step is modelled by the thunk. -/
inductive CallResult where
  | immediate (result : Except PyError ProviderCall)
  | lazySeq (forceFirst : Unit → Except PyError ProviderCall)

/-- Embedding of the branch of `completion` (lines 123-126): streaming requests
get the generator back unevaluated, non-streaming requests are executed now. -/
def completion_entry (config : FireworksImplConfig)
    (provider_data : Option ProviderData) (request : CompletionRequest) :
    CallResult :=
  if request.stream then
    .lazySeq (stream_completion config provider_data request)
  else
    .immediate (nonstream_completion config provider_data request)

/-- Embedding of the branch of `chat_completion` (lines 195-198). -/
def chat_completion_entry (config : FireworksImplConfig)
    (provider_data : Option ProviderData) (request : ChatCompletionRequest) :
    CallResult :=
  if request.stream then
    .lazySeq (stream_chat_completion config provider_data request)
  else
    .immediate (nonstream_chat_completion config provider_data request)

/-- Embedding of `embeddings` (lines 262-267): always raises
`NotImplementedError`; the error return means no provider call is issued. -/
def embeddings (_model_id : String) (_contents : List (List ContentItem)) :
    Except PyError ProviderCall :=
  .error .notImplementedError


/-- The max-token setting the caller explicitly supplied, if any (`none` both
when `sampling_params` itself is absent and when its `max_tokens` field is
unset). -/
def specifiedMaxTokens : Option SamplingParams → Option Int
  | none => none
  | some p => p.max_tokens

/-- Scenario A of the spec: a completion request with content "Hello", default
sampling parameters, no response format, not streaming. -/
def scenarioARequest : CompletionRequest :=
  { model := "accounts/fireworks/models/llama-v3p1-8b-instruct",
    content := [.text "Hello"] }

/-- The payload scenario A must produce. -/
def scenarioAParams : Params :=
  [("model", .str "accounts/fireworks/models/llama-v3p1-8b-instruct"),
   ("prompt", .str "Hello"), ("stream", .bool false), ("max_tokens", .num 512)]

/-- A configuration with a static API key. -/
def testConfig : FireworksImplConfig := { api_key := some "test-key" }

/-- A configuration with no static API key. -/
def unauthConfig : FireworksImplConfig := {}

/-- A text-only chat request (scenario B shape, non-streaming). -/
def chatTextRequest : ChatCompletionRequest :=
  { model := "m", messages := [{ role := "user", content := [.text "hi"] }] }

/-- The payload `chatTextRequest` builds. -/
def chatTextParams : Params :=
  [("model", .str "m"),
   ("prompt", .str "<|start_header_id|>user<|end_header_id|>\n\nhi<|eot_id|>"),
   ("stream", .bool false), ("max_tokens", .num 512)]

/-- A chat request with one image-bearing message (scenario C shape). -/
def chatImageRequest : ChatCompletionRequest :=
  { model := "m", messages := [{ role := "user", content := [.image "img-url"] }] }

/-- A completion request containing media (the fatal usage error of §4.1). -/
def mediaCompletionRequest : CompletionRequest :=
  { model := "m", content := [.image "img-url"] }

/-- A streaming completion request. -/
def streamingHelloRequest : CompletionRequest :=
  { model := "m", content := [.text "Hello"], stream := true }

/-- A streaming chat request. -/
def streamingChatRequest : ChatCompletionRequest :=
  { model := "m", messages := [{ role := "user", content := [.text "hi"] }],
    stream := true }

end FireworksAdapter

namespace FireworksAdapter

theorem isPrefixOf_append_self : ∀ (l r : List Char), l.isPrefixOf (l ++ r) = true
  | [], _ => by simp [List.isPrefixOf]
  | a :: t, r => by simp [List.isPrefixOf, isPrefixOf_append_self t r]

theorem anyCongrOn {α : Type} (l : List α) (p q : α → Bool)
    (h : ∀ x ∈ l, p x = q x) : l.any p = l.any q := by
  induction l with
  | nil => rfl
  | cons a t ih =>
    simp only [List.any_cons]
    rw [h a (by simp), ih fun x hx => h x (by simp [hx])]

theorem dictContains_dictInsert (d : Params) (k : String) (v : JValue) (k' : String) :
    dictContains (dictInsert d k v) k' = (dictContains d k' || (k == k')) := by
  unfold dictContains dictInsert
  by_cases h : (d.any fun kv => kv.1 == k) = true
  · rw [if_pos h]
    rw [List.any_map]
    by_cases hk : k = k'
    · subst hk
      simp only [beq_self_eq_true, Bool.or_true]
      rw [List.any_eq_true] at h ⊢
      obtain ⟨kv, hmem, hkv⟩ := h
      exact ⟨kv, hmem, by simp [Function.comp, hkv]⟩
    · have hkb : (k == k') = false := by simp [hk]
      simp only [hkb, Bool.or_false]
      apply anyCongrOn
      intro kv _
      simp only [Function.comp]
      by_cases hkk : (kv.1 == k) = true
      · have h1 : kv.1 = k := by simpa using hkk
        simp [hkk, hkb, h1, hk]
      · simp only [Bool.not_eq_true] at hkk
        simp [hkk]
  · rw [if_neg h]
    simp [List.any_append, Bool.or_comm]

theorem dictContains_dictSetdefault (d : Params) (k : String) (v : JValue) (k' : String) :
    (dictContains (dictSetdefault d k v) k' = true) ↔
      (dictContains d k' = true ∨ (dictContains d k = false ∧ k = k')) := by
  unfold dictContains dictSetdefault
  by_cases h : (d.any fun kv => kv.1 == k) = true
  · simp [h]
  · simp only [Bool.not_eq_true] at h
    rw [if_neg (by simp [h])]
    simp [h, List.any_append]

theorem dictContains_foldlInsert (l : Params) (d : Params) (k : String) :
    dictContains (l.foldl (fun acc kv => dictInsert acc kv.1 kv.2) d) k =
      (dictContains d k || l.any fun kv => kv.1 == k) := by
  induction l generalizing d with
  | nil => simp
  | cons x xs ih =>
    rw [List.foldl_cons, ih, dictContains_dictInsert]
    simp [Bool.or_assoc]

theorem dictContains_pyDict (l : Params) (k : String) :
    dictContains (pyDict l) k = l.any fun kv => kv.1 == k := by
  rw [pyDict, dictContains_foldlInsert]
  simp [dictContains]

theorem find?_map_replace (t : Params) (k : String) (v : JValue)
    (h : (t.any fun kv => kv.1 == k) = true) :
    (t.map fun kv => if kv.1 == k then (k, v) else kv).find? (fun kv => kv.1 == k)
      = some (k, v) := by
  induction t with
  | nil => simp at h
  | cons kv t ih =>
    by_cases hk : (kv.1 == k) = true
    · simp only [List.map_cons, hk, if_true]
      exact List.find?_cons_of_pos _ (by simp)
    · simp only [Bool.not_eq_true] at hk
      simp only [List.map_cons, hk, if_false]
      rw [List.find?_cons_of_neg _ (by simp [hk])]
      exact ih (by simpa [List.any_cons, hk] using h)

theorem find?_map_replace_ne (t : Params) (k k' : String) (v : JValue) (hk : k ≠ k') :
    (t.map fun kv => if kv.1 == k then (k, v) else kv).find? (fun kv => kv.1 == k')
      = t.find? (fun kv => kv.1 == k') := by
  induction t with
  | nil => rfl
  | cons kv t ih =>
    by_cases hkk : (kv.1 == k) = true
    · have h1 : kv.1 = k := by simpa using hkk
      have h2 : (kv.1 == k') = false := by simp [h1, hk]
      simp only [List.map_cons, hkk, if_true]
      rw [List.find?_cons_of_neg _ (by simp [hk]), ih]
      rw [List.find?_cons_of_neg _ (by simp [h2])]
    · simp only [Bool.not_eq_true] at hkk
      simp only [List.map_cons, hkk]
      by_cases hkk' : (kv.1 == k') = true
      · rw [List.find?_cons_of_pos _ (by simp [hkk']),
          List.find?_cons_of_pos (p := fun kv => kv.1 == k') t hkk']
        simp
      · rw [List.find?_cons_of_neg _ (by simp [hkk']),
          List.find?_cons_of_neg (p := fun kv => kv.1 == k') t hkk', ih]

theorem dictGet_dictInsert_self (d : Params) (k : String) (v : JValue) :
    dictGet (dictInsert d k v) k = some v := by
  unfold dictGet dictInsert
  by_cases h : (d.any fun kv => kv.1 == k) = true
  · rw [if_pos h, find?_map_replace d k v h]
    rfl
  · rw [if_neg h, List.find?_append]
    simp only [Bool.not_eq_true, List.any_eq_false] at h
    have h2 : d.find? (fun kv => kv.1 == k) = none :=
      List.find?_eq_none.mpr fun x hx => by simpa using h x hx
    rw [h2]
    simp [List.find?]

theorem dictGet_dictInsert_ne (d : Params) (k : String) (v : JValue) (k' : String)
    (hk : k ≠ k') :
    dictGet (dictInsert d k v) k' = dictGet d k' := by
  unfold dictGet dictInsert
  by_cases h : (d.any fun kv => kv.1 == k) = true
  · rw [if_pos h, find?_map_replace_ne d k k' v hk]
  · rw [if_neg h, List.find?_append]
    have hb : (k == k') = false := by simp [hk]
    have h2 : ([(k, v)] : Params).find? (fun kv => kv.1 == k') = none := by
      simp [List.find?, hb]
    rw [h2, Option.or_none]

theorem dictGet_foldlInsert_absent (l : Params) (d : Params) (k : String)
    (h : (l.any fun kv => kv.1 == k) = false) :
    dictGet (l.foldl (fun acc kv => dictInsert acc kv.1 kv.2) d) k = dictGet d k := by
  induction l generalizing d with
  | nil => simp
  | cons x xs ih =>
    simp only [List.any_cons, Bool.or_eq_false_iff] at h
    rw [List.foldl_cons, ih _ h.2, dictGet_dictInsert_ne]
    intro he
    simp [he] at h

theorem pyDict_append (a b : Params) :
    pyDict (a ++ b) = b.foldl (fun acc kv => dictInsert acc kv.1 kv.2) (pyDict a) := by
  simp [pyDict, List.foldl_append]

theorem get_sampling_options_contains_false (sp : Option SamplingParams) (k : String)
    (h1 : ("temperature" : String) ≠ k) (h2 : ("top_p" : String) ≠ k)
    (h3 : ("top_k" : String) ≠ k) (h4 : ("max_tokens" : String) ≠ k)
    (h5 : ("repetition_penalty" : String) ≠ k) :
    ((get_sampling_options sp).any fun kv => kv.1 == k) = false := by
  match sp with
  | none => rfl
  | some p =>
    obtain ⟨t, tp, tk, mt, rp⟩ := p
    cases t <;> cases tp <;> cases tk <;> cases mt <;> cases rp <;>
      simp [get_sampling_options, h1, h2, h3, h4, h5]

theorem get_sampling_options_max_tokens_absent (p : SamplingParams)
    (h : p.max_tokens = none) :
    ((get_sampling_options (some p)).any fun kv => kv.1 == "max_tokens") = false := by
  obtain ⟨t, tp, tk, mt, rp⟩ := p
  subst h
  cases t <;> cases tp <;> cases tk <;> cases rp <;> rfl

theorem get_sampling_options_max_tokens_present (p : SamplingParams) (v : Int)
    (h : p.max_tokens = some v) :
    ((get_sampling_options (some p)).any fun kv => kv.1 == "max_tokens") = true ∧
    dictGet (get_sampling_options (some p)) "max_tokens" = some (.num v) := by
  obtain ⟨t, tp, tk, mt, rp⟩ := p
  subst h
  cases t <;> cases tp <;> cases tk <;> cases rp <;> exact ⟨rfl, rfl⟩

theorem build_options_contains_false (sp : Option SamplingParams)
    (fmt : Option ResponseFormatData) (opts : Params) (k : String)
    (hb : build_options sp fmt = .ok opts)
    (h1 : ("temperature" : String) ≠ k) (h2 : ("top_p" : String) ≠ k)
    (h3 : ("top_k" : String) ≠ k) (h4 : ("max_tokens" : String) ≠ k)
    (h5 : ("repetition_penalty" : String) ≠ k)
    (h6 : ("response_format" : String) ≠ k) :
    dictContains opts k = false := by
  have hs := get_sampling_options_contains_false sp k h1 h2 h3 h4 h5
  have hsd : dictContains (dictSetdefault (get_sampling_options sp) "max_tokens"
      (.num 512)) k = false := by
    unfold dictContains dictSetdefault
    by_cases hc : ((get_sampling_options sp).any fun kv => kv.1 == "max_tokens") = true
    · simp only [hc, if_true]
      exact hs
    · simp only [Bool.not_eq_true] at hc
      simp [hc, List.any_append, hs, show ("max_tokens" == k) = false by simp [h4]]
  unfold build_options at hb
  match hf : fmt with
  | none =>
    simp only [hf, bind, pure] at hb
    cases hb
    exact hsd
  | some f =>
    by_cases hj : f.type = jsonSchemaFormatValue
    · simp only [hf, hj, if_true, bind, pure] at hb
      cases hb
      rw [show dictContains _ k = _ from dictContains_dictInsert _ _ _ k, hsd]
      simp [h6]
    · by_cases hg : f.type = grammarFormatValue
      · simp only [hf, hj, hg, if_true, if_false, bind, pure] at hb
        cases hb
        rw [show dictContains _ k = _ from dictContains_dictInsert _ _ _ k, hsd]
        simp [h6]
      · simp only [hf, hj, hg, if_false, bind, pure, throw] at hb
        cases hb

theorem dictGet_dictSetdefault_absent (d : Params) (k : String) (v : JValue)
    (h : (d.any fun kv => kv.1 == k) = false) :
    dictGet (dictSetdefault d k v) k = some v := by
  unfold dictGet dictSetdefault
  rw [if_neg (by simp [h]), List.find?_append]
  have h2 : d.find? (fun kv => kv.1 == k) = none := by
    rw [List.find?_eq_none]
    intro x hx
    simp only [List.any_eq_false] at h
    simpa using h x hx
  rw [h2]
  simp [List.find?]

theorem dictGet_dictSetdefault_present (d : Params) (k : String) (v : JValue)
    (h : (d.any fun kv => kv.1 == k) = true) :
    dictGet (dictSetdefault d k v) k = dictGet d k := by
  unfold dictSetdefault
  rw [if_pos h]

theorem build_options_max_tokens_eq (sp : Option SamplingParams)
    (fmt : Option ResponseFormatData) (opts : Params)
    (hb : build_options sp fmt = .ok opts) :
    dictGet opts "max_tokens" =
      dictGet (dictSetdefault (get_sampling_options sp) "max_tokens" (.num 512))
        "max_tokens" := by
  unfold build_options at hb
  match hf : fmt with
  | none =>
    simp only [bind, pure] at hb
    cases hb
    rfl
  | some f =>
    by_cases hj : f.type = jsonSchemaFormatValue
    · simp only [hj, if_true, bind, pure] at hb
      cases hb
      rw [dictGet_dictInsert_ne]
      decide
    · by_cases hg : f.type = grammarFormatValue
      · simp only [hj, hg, if_true, if_false, bind, pure] at hb
        cases hb
        rw [dictGet_dictInsert_ne]
        decide
      · simp only [hj, hg, if_false, bind, pure, throw] at hb
        cases hb

theorem get_params_chat_no_media (r : ChatCompletionRequest) (opts : Params)
    (hm : request_has_media (.chat r) = false)
    (hb : build_options r.sampling_params r.response_format = .ok opts) :
    get_params (.chat r) = .ok (pyDict ([("model", .str r.model),
      ("prompt", .str (stripLeadingBos (chat_completion_request_to_prompt r))),
      ("stream", .bool r.stream)] ++ opts)) := by
  unfold get_params
  simp only [hm, GenRequest.sampling_params, GenRequest.response_format,
    GenRequest.model, GenRequest.stream, hb, bind, pure, Except.bind]
  rfl

theorem get_params_chat_media (r : ChatCompletionRequest) (opts : Params)
    (hm : request_has_media (.chat r) = true)
    (hb : build_options r.sampling_params r.response_format = .ok opts) :
    get_params (.chat r) = .ok (pyDict ([("model", .str r.model),
      ("messages", .arr (r.messages.map convert_message_to_dict)),
      ("stream", .bool r.stream)] ++ opts)) := by
  unfold get_params
  simp only [hm, GenRequest.sampling_params, GenRequest.response_format,
    GenRequest.model, GenRequest.stream, hb, bind, pure, Except.bind]
  rfl

theorem get_params_completion_no_media (r : CompletionRequest) (opts : Params)
    (hm : request_has_media (.completion r) = false)
    (hb : build_options r.sampling_params r.response_format = .ok opts) :
    get_params (.completion r) = .ok (pyDict ([("model", .str r.model),
      ("prompt", .str (stripLeadingBos (completion_request_to_prompt r))),
      ("stream", .bool r.stream)] ++ opts)) := by
  unfold get_params
  simp only [hm, GenRequest.sampling_params, GenRequest.response_format,
    GenRequest.model, GenRequest.stream, hb, bind, pure, Except.bind]
  rfl

theorem get_params_completion_media (r : CompletionRequest)
    (hm : request_has_media (.completion r) = true) :
    get_params (.completion r) = .error (.assertionError
      "Fireworks does not support media for Completion requests") := by
  unfold get_params
  simp only [hm, bind, pure, Except.bind]
  rfl

theorem get_params_chat_error (r : ChatCompletionRequest) (e : PyError)
    (hb : build_options r.sampling_params r.response_format = .error e) :
    get_params (.chat r) = .error e := by
  unfold get_params
  by_cases hm : request_has_media (.chat r) = true
  · simp only [hm, GenRequest.sampling_params, GenRequest.response_format, hb,
      bind, pure, Except.bind]
    rfl
  · simp only [Bool.not_eq_true] at hm
    simp only [hm, GenRequest.sampling_params, GenRequest.response_format, hb,
      bind, pure, Except.bind]
    rfl

theorem get_params_completion_error (r : CompletionRequest) (e : PyError)
    (hm : request_has_media (.completion r) = false)
    (hb : build_options r.sampling_params r.response_format = .error e) :
    get_params (.completion r) = .error e := by
  unfold get_params
  simp only [hm, GenRequest.sampling_params, GenRequest.response_format, hb,
    bind, pure, Except.bind]
  rfl

theorem setdefault_sampling_no_response_format (sp : Option SamplingParams) :
    dictContains (dictSetdefault (get_sampling_options sp) "max_tokens" (.num 512))
      "response_format" = false := by
  have hs := get_sampling_options_contains_false sp "response_format"
    (by decide) (by decide) (by decide) (by decide) (by decide)
  unfold dictContains dictSetdefault
  by_cases hc : ((get_sampling_options sp).any fun kv => kv.1 == "max_tokens") = true
  · simp only [hc, if_true]
    exact hs
  · simp only [Bool.not_eq_true] at hc
    simp [hc, List.any_append, hs]

theorem payload_contains_key (front : Params) (opts : Params) (k : String)
    (hopts : dictContains opts k = false) :
    dictContains (pyDict (front ++ opts)) k = dictContains front k := by
  rw [dictContains_pyDict]
  unfold dictContains at hopts ⊢
  simp [List.any_append, hopts]

theorem payload_get_key (front : Params) (opts : Params) (k : String)
    (hopts : dictContains opts k = false) :
    dictGet (pyDict (front ++ opts)) k = dictGet (pyDict front) k := by
  rw [pyDict_append, dictGet_foldlInsert_absent]
  exact hopts

theorem chat_params_shape (r : ChatCompletionRequest) (params : Params)
    (hp : get_params (.chat r) = .ok params) :
    dictContains params "messages" = request_has_media (.chat r) ∧
    dictContains params "prompt" = (!request_has_media (.chat r)) ∧
    (request_has_media (.chat r) = true →
      dictGet params "messages" =
        some (.arr (r.messages.map convert_message_to_dict))) := by
  obtain ⟨opts, hb⟩ : ∃ opts,
      build_options r.sampling_params r.response_format = .ok opts := by
    cases hbo : build_options r.sampling_params r.response_format with
    | ok o => exact ⟨o, rfl⟩
    | error e =>
      rw [get_params_chat_error r e hbo] at hp
      cases hp
  have hnm := build_options_contains_false r.sampling_params r.response_format opts
    "messages" hb (by decide) (by decide) (by decide) (by decide) (by decide)
    (by decide)
  have hnp := build_options_contains_false r.sampling_params r.response_format opts
    "prompt" hb (by decide) (by decide) (by decide) (by decide) (by decide)
    (by decide)
  cases hm : request_has_media (.chat r) with
  | false =>
    rw [get_params_chat_no_media r opts hm hb] at hp
    injection hp with hpp
    subst hpp
    refine ⟨?_, ?_, fun h => by simp at h⟩
    · rw [payload_contains_key _ _ _ hnm]
      rfl
    · rw [payload_contains_key _ _ _ hnp]
      rfl
  | true =>
    rw [get_params_chat_media r opts hm hb] at hp
    injection hp with hpp
    subst hpp
    refine ⟨?_, ?_, fun _ => ?_⟩
    · rw [payload_contains_key _ _ _ hnm]
      rfl
    · rw [payload_contains_key _ _ _ hnp]
      rfl
    · rw [payload_get_key _ _ _ hnm]
      rfl

theorem completion_params_shape (r : CompletionRequest) (params : Params)
    (hp : get_params (.completion r) = .ok params) :
    dictContains params "prompt" = true ∧
    dictContains params "messages" = false ∧
    dictGet params "prompt" =
      some (.str (stripLeadingBos (completion_request_to_prompt r))) := by
  cases hm : request_has_media (.completion r) with
  | true =>
    rw [get_params_completion_media r hm] at hp
    cases hp
  | false =>
    obtain ⟨opts, hb⟩ : ∃ opts,
        build_options r.sampling_params r.response_format = .ok opts := by
      cases hbo : build_options r.sampling_params r.response_format with
      | ok o => exact ⟨o, rfl⟩
      | error e =>
        rw [get_params_completion_error r e hm hbo] at hp
        cases hp
    have hnm := build_options_contains_false r.sampling_params r.response_format
      opts "messages" hb (by decide) (by decide) (by decide) (by decide)
      (by decide) (by decide)
    have hnp := build_options_contains_false r.sampling_params r.response_format
      opts "prompt" hb (by decide) (by decide) (by decide) (by decide)
      (by decide) (by decide)
    rw [get_params_completion_no_media r opts hm hb] at hp
    injection hp with hpp
    subst hpp
    refine ⟨?_, ?_, ?_⟩
    · rw [payload_contains_key _ _ _ hnp]
      rfl
    · rw [payload_contains_key _ _ _ hnm]
      rfl
    · rw [payload_get_key _ _ _ hnp]
      rfl

theorem nonstream_chat_completion_run (config : FireworksImplConfig)
    (provider_data : Option ProviderData) (r : ChatCompletionRequest)
    (params : Params) (key : String)
    (hp : get_params (.chat r) = .ok params)
    (hk : get_client config provider_data = .ok key) :
    nonstream_chat_completion config provider_data r = .ok
      { endpoint := if dictContains params "messages" then .chatCompletionsCreate
                    else .completionCreate,
        api_key := key, params := params } := by
  unfold nonstream_chat_completion
  by_cases hm : dictContains params "messages" = true
  · simp [hp, hk, hm, bind, Except.bind, pure, Except.pure]
  · simp only [Bool.not_eq_true] at hm
    simp [hp, hk, hm, bind, Except.bind, pure, Except.pure]

theorem stream_chat_completion_run (config : FireworksImplConfig)
    (provider_data : Option ProviderData) (r : ChatCompletionRequest)
    (params : Params) (key : String)
    (hp : get_params (.chat r) = .ok params)
    (hk : get_client config provider_data = .ok key) :
    (stream_chat_completion config provider_data r) () = .ok
      { endpoint := if dictContains params "messages" then .chatCompletionsCreate
                    else .completionCreate,
        api_key := key, params := params } := by
  unfold stream_chat_completion
  by_cases hm : dictContains params "messages" = true
  · simp [hp, hk, hm, bind, Except.bind, pure, Except.pure]
  · simp only [Bool.not_eq_true] at hm
    simp [hp, hk, hm, bind, Except.bind, pure, Except.pure]

end FireworksAdapter

namespace FireworksAdapter

/-- C1: for every chat-completion request whose payload build succeeds, if no
content segment is non-text media the built payload contains `"prompt"` and not
`"messages"`; if some segment is non-text media it contains `"messages"` (the
messages rendered to the provider's dict form) and not `"prompt"`. -/
theorem chat_payload_prompt_xor_messages (r : ChatCompletionRequest)
    (params : Params) (hp : get_params (.chat r) = .ok params) :
    (request_has_media (.chat r) = false →
      dictContains params "prompt" = true ∧
      dictContains params "messages" = false) ∧
    (request_has_media (.chat r) = true →
      dictContains params "messages" = true ∧
      dictGet params "messages" =
        some (.arr (r.messages.map convert_message_to_dict)) ∧
      dictContains params "prompt" = false) := by
  obtain ⟨h1, h2, h3⟩ := chat_params_shape r params hp
  constructor
  · intro hm
    rw [hm] at h1 h2
    exact ⟨by simpa using h2, h1⟩
  · intro hm
    rw [hm] at h1 h2
    exact ⟨h1, h3 hm, by simpa using h2⟩

/-- Witness for C1: the media-free chat request `chatTextRequest` builds the
payload `chatTextParams`, which has a `"prompt"` key and no `"messages"` key. -/
theorem chat_payload_prompt_xor_messages_witness :
    dictContains chatTextParams "prompt" = true ∧
    dictContains chatTextParams "messages" = false :=
  (chat_payload_prompt_xor_messages chatTextRequest chatTextParams rfl).1 rfl

/-- C2: both chat dispatchers pick the structured-messages endpoint exactly when
the built payload carries the key `"messages"` and the raw-prompt endpoint
otherwise, and that key's presence coincides with the builder's media
decision. -/
theorem chat_dispatch_keyed_on_messages (config : FireworksImplConfig)
    (provider_data : Option ProviderData) (r : ChatCompletionRequest)
    (params : Params) (key : String)
    (hp : get_params (.chat r) = .ok params)
    (hk : get_client config provider_data = .ok key) :
    dictContains params "messages" = request_has_media (.chat r) ∧
    nonstream_chat_completion config provider_data r = .ok
      { endpoint := if dictContains params "messages" then .chatCompletionsCreate
                    else .completionCreate,
        api_key := key, params := params } ∧
    (stream_chat_completion config provider_data r) () = .ok
      { endpoint := if dictContains params "messages" then .chatCompletionsCreate
                    else .completionCreate,
        api_key := key, params := params } :=
  ⟨(chat_params_shape r params hp).1,
   nonstream_chat_completion_run config provider_data r params key hp hk,
   stream_chat_completion_run config provider_data r params key hp hk⟩

/-- Witness for C2: the media-free chat request routes both dispatchers to the
raw-prompt endpoint, consistently with its payload lacking `"messages"`. -/
theorem chat_dispatch_keyed_on_messages_witness :
    dictContains chatTextParams "messages" =
      request_has_media (.chat chatTextRequest) ∧
    nonstream_chat_completion testConfig none chatTextRequest = .ok
      { endpoint := if dictContains chatTextParams "messages" then
                      .chatCompletionsCreate
                    else .completionCreate,
        api_key := "test-key", params := chatTextParams } ∧
    (stream_chat_completion testConfig none chatTextRequest) () = .ok
      { endpoint := if dictContains chatTextParams "messages" then
                      .chatCompletionsCreate
                    else .completionCreate,
        api_key := "test-key", params := chatTextParams } :=
  chat_dispatch_keyed_on_messages testConfig none chatTextRequest chatTextParams
    "test-key" rfl rfl

/-- C3: the beginning-of-sequence marker is stripped literally and exactly once
from a rendered prompt that starts with it (a prompt equal to the marker
becomes empty, a doubled marker keeps its second copy), prompts not literally
starting with it are unchanged, and the built completion payload's prompt is
exactly the rendered prompt with this transformation applied. -/
theorem bos_marker_stripped_literally_once :
    (∀ rest : String, stripLeadingBos (bosMarker ++ rest) = rest) ∧
    stripLeadingBos bosMarker = "" ∧
    stripLeadingBos (bosMarker ++ bosMarker) = bosMarker ∧
    (∀ p : String, bosMarker.data.isPrefixOf p.data = false →
      stripLeadingBos p = p) ∧
    (∀ (r : CompletionRequest) (params : Params),
      get_params (.completion r) = .ok params →
      dictGet params "prompt" =
        some (.str (stripLeadingBos (completion_request_to_prompt r)))) := by
  refine ⟨?_, rfl, rfl, ?_, ?_⟩
  · intro rest
    have h := isPrefixOf_append_self bosMarker.data rest.data
    simp only [stripLeadingBos, String.data_append, h, if_true]
    rw [show bosMarker.length = bosMarker.data.length from rfl, List.drop_left]
  · intro p h
    simp [stripLeadingBos, h]
  · intro r params hp
    exact (completion_params_shape r params hp).2.2

/-- Witness for C3: a marker-prefixed prompt loses the marker once, a plain
prompt is unchanged, and scenario A's payload prompt is the stripped rendered
prompt. -/
theorem bos_marker_stripped_literally_once_witness :
    stripLeadingBos (bosMarker ++ "Hi") = "Hi" ∧
    stripLeadingBos "plain prompt" = "plain prompt" ∧
    dictGet scenarioAParams "prompt" =
      some (.str (stripLeadingBos (completion_request_to_prompt scenarioARequest))) :=
  ⟨bos_marker_stripped_literally_once.1 "Hi",
   bos_marker_stripped_literally_once.2.2.2.1 "plain prompt" (by decide),
   bos_marker_stripped_literally_once.2.2.2.2 scenarioARequest scenarioAParams rfl⟩

end FireworksAdapter

namespace FireworksAdapter

/-- C4: the option mapper emits exactly the json_object/schema pair for the
json_schema tag, exactly the grammar/grammar pair for the grammar tag, no
response-format key when no format is supplied, and the unknown-format error
(the spec's UnsupportedResponseFormatError) for any other tag. -/
theorem response_format_option_mapping (sp : Option SamplingParams)
    (f : ResponseFormatData) :
    (f.type = jsonSchemaFormatValue →
      ∃ opts, build_options sp (some f) = .ok opts ∧
        dictGet opts "response_format" =
          some (.obj [("type", .str "json_object"), ("schema", f.json_schema)])) ∧
    (f.type = grammarFormatValue →
      ∃ opts, build_options sp (some f) = .ok opts ∧
        dictGet opts "response_format" =
          some (.obj [("type", .str "grammar"), ("grammar", f.bnf)])) ∧
    (∃ opts, build_options sp none = .ok opts ∧
      dictContains opts "response_format" = false) ∧
    (f.type ≠ jsonSchemaFormatValue → f.type ≠ grammarFormatValue →
      build_options sp (some f) = .error
        (.valueError ("Unknown response format " ++ f.type))) := by
  refine ⟨?_, ?_, ?_, ?_⟩
  · intro hj
    have he : build_options sp (some f) = .ok (dictInsert
        (dictSetdefault (get_sampling_options sp) "max_tokens" (.num 512))
        "response_format"
        (.obj [("type", .str "json_object"), ("schema", f.json_schema)])) := by
      unfold build_options
      simp only [if_pos hj, bind, pure, Except.bind, Except.pure]
    exact ⟨_, he, dictGet_dictInsert_self _ _ _⟩
  · intro hg
    have hne : ¬ f.type = jsonSchemaFormatValue := by
      rw [hg]
      decide
    have he : build_options sp (some f) = .ok (dictInsert
        (dictSetdefault (get_sampling_options sp) "max_tokens" (.num 512))
        "response_format"
        (.obj [("type", .str "grammar"), ("grammar", f.bnf)])) := by
      unfold build_options
      simp only [if_neg hne, if_pos hg, bind, pure, Except.bind, Except.pure]
    exact ⟨_, he, dictGet_dictInsert_self _ _ _⟩
  · exact ⟨_, rfl, setdefault_sampling_no_response_format sp⟩
  · intro hj hg
    unfold build_options
    simp only [if_neg hj, if_neg hg, bind, pure, Except.bind, Except.pure, throw]
    rfl

/-- Witness for C4: a json_schema format with schema "S" yields exactly the
json_object/schema option pair. -/
theorem response_format_option_mapping_witness :
    ∃ opts, build_options none
        (some { type := "json_schema", json_schema := JValue.str "S" }) =
        .ok opts ∧
      dictGet opts "response_format" =
        some (.obj [("type", .str "json_object"), ("schema", .str "S")]) :=
  (response_format_option_mapping none
    { type := "json_schema", json_schema := JValue.str "S" }).1 rfl

/-- C5: when the caller did not specify a max-token setting the built options
carry max_tokens = 512, and an explicitly supplied setting is passed through
unchanged. -/
theorem max_tokens_default_and_preserved (sp : Option SamplingParams)
    (fmt : Option ResponseFormatData) (opts : Params)
    (hb : build_options sp fmt = .ok opts) :
    (specifiedMaxTokens sp = none →
      dictGet opts "max_tokens" = some (.num 512)) ∧
    (∀ v : Int, specifiedMaxTokens sp = some v →
      dictGet opts "max_tokens" = some (.num v)) := by
  cases sp with
  | none =>
    refine ⟨fun _ => ?_, fun v hv => by simp [specifiedMaxTokens] at hv⟩
    rw [build_options_max_tokens_eq _ _ _ hb]
    exact dictGet_dictSetdefault_absent _ _ _ (by rfl)
  | some p =>
    cases hmt : p.max_tokens with
    | none =>
      refine ⟨fun _ => ?_, fun v hv => ?_⟩
      · rw [build_options_max_tokens_eq _ _ _ hb]
        exact dictGet_dictSetdefault_absent _ _ _
          (get_sampling_options_max_tokens_absent p hmt)
      · simp [specifiedMaxTokens, hmt] at hv
    | some w =>
      refine ⟨fun hn => ?_, fun v hv => ?_⟩
      · simp [specifiedMaxTokens, hmt] at hn
      · have hv' : w = v := by simpa [specifiedMaxTokens, hmt] using hv
        subst hv'
        rw [build_options_max_tokens_eq _ _ _ hb]
        obtain ⟨hc, hg⟩ := get_sampling_options_max_tokens_present p w hmt
        rw [dictGet_dictSetdefault_present _ _ _ hc, hg]

/-- Witness for C5: default sampling parameters (no explicit max-token setting)
produce options whose max_tokens is 512. -/
theorem max_tokens_default_and_preserved_witness :
    dictGet [("max_tokens", JValue.num 512)] "max_tokens" =
      some (JValue.num 512) :=
  (max_tokens_default_and_preserved (some {}) none
    [("max_tokens", JValue.num 512)] rfl).1 rfl

/-- C6: every successfully built completion payload contains `"prompt"` and
never `"messages"`, and a completion request with any media segment makes the
build fail with the media assertion (the spec's UnsupportedMediaError) before
any provider call is issued. -/
theorem completion_payload_always_prompt_media_fatal (r : CompletionRequest) :
    (∀ params, get_params (.completion r) = .ok params →
      dictContains params "prompt" = true ∧
      dictContains params "messages" = false) ∧
    (request_has_media (.completion r) = true →
      get_params (.completion r) = .error (.assertionError
        "Fireworks does not support media for Completion requests") ∧
      ∀ (config : FireworksImplConfig) (provider_data : Option ProviderData),
        nonstream_completion config provider_data r = .error (.assertionError
          "Fireworks does not support media for Completion requests")) := by
  constructor
  · intro params hp
    exact ⟨(completion_params_shape r params hp).1,
           (completion_params_shape r params hp).2.1⟩
  · intro hm
    refine ⟨get_params_completion_media r hm,
            fun config provider_data => ?_⟩
    unfold nonstream_completion
    rw [get_params_completion_media r hm]
    rfl

/-- Witness for C6: scenario A's payload has a prompt and no messages, and the
media-bearing completion request fails to build. -/
theorem completion_payload_always_prompt_media_fatal_witness :
    (dictContains scenarioAParams "prompt" = true ∧
      dictContains scenarioAParams "messages" = false) ∧
    get_params (.completion mediaCompletionRequest) = .error (.assertionError
      "Fireworks does not support media for Completion requests") :=
  ⟨(completion_payload_always_prompt_media_fatal scenarioARequest).1
      scenarioAParams rfl,
   ((completion_payload_always_prompt_media_fatal mediaCompletionRequest).2
      rfl).1⟩

end FireworksAdapter

namespace FireworksAdapter

/-- C7: credential resolution prefers the static config key over any ambient
credential; otherwise the ambient per-request credential is used; with neither
present (absent, or empty and hence falsy) the missing-credential error (the
spec's MissingCredentialError) is raised with the message naming the
X-LlamaStack-ProviderData header and fireworks_api_key field to supply, and on
the non-streaming completion path this happens after payload build and before
any provider call. -/
theorem credential_resolution_contract (config : FireworksImplConfig)
    (provider_data : Option ProviderData) :
    (∀ k, config.api_key = some k →
      get_client config provider_data = .ok k) ∧
    (config.api_key = none → ∀ pd k, provider_data = some pd →
      pd.fireworks_api_key = some k → k ≠ "" →
      get_client config provider_data = .ok k) ∧
    (config.api_key = none → provider_data = none →
      get_client config provider_data = .error (.valueError missingKeyMessage)) ∧
    (config.api_key = none → ∀ pd, provider_data = some pd →
      (pd.fireworks_api_key = none ∨ pd.fireworks_api_key = some "") →
      get_client config provider_data = .error (.valueError missingKeyMessage)) ∧
    (config.api_key = none → provider_data = none →
      ∀ (r : CompletionRequest) (params : Params),
        get_params (.completion r) = .ok params →
        nonstream_completion config provider_data r =
          .error (.valueError missingKeyMessage)) := by
  refine ⟨?_, ?_, ?_, ?_, ?_⟩
  · intro k hk
    simp [get_client, hk]
  · intro hc pd k hpd hk hne
    subst hpd
    simp [get_client, hc, hk, hne]
  · intro hc hpd
    subst hpd
    simp [get_client, hc]
  · intro hc pd hpd hfk
    subst hpd
    rcases hfk with h | h <;> simp [get_client, hc, h]
  · intro hc hpd r params hp
    subst hpd
    unfold nonstream_completion
    rw [hp]
    have hcl : get_client config none = .error (.valueError missingKeyMessage) := by
      simp [get_client, hc]
    simp [hcl, bind, Except.bind]

/-- Witness for C7: with no static key and no ambient credential, `get_client`
fails with the remediation message, and the non-streaming completion path for
scenario A fails the same way before any call. -/
theorem credential_resolution_contract_witness :
    get_client unauthConfig none = .error (.valueError missingKeyMessage) ∧
    nonstream_completion unauthConfig none scenarioARequest =
      .error (.valueError missingKeyMessage) :=
  ⟨(credential_resolution_contract unauthConfig none).2.2.1 rfl rfl,
   (credential_resolution_contract unauthConfig none).2.2.2.2 rfl rfl
     scenarioARequest scenarioAParams rfl⟩

/-- C8: scenario A — completion request with content "Hello", stream = false,
default sampling params, no response format — builds exactly the payload
with the keys model, prompt = "Hello", stream = false, max_tokens = 512 and no
others, and the non-streaming dispatcher issues exactly one blocking
raw-prompt call with that payload. -/
theorem scenario_a_exact_payload :
    get_params (.completion scenarioARequest) = .ok scenarioAParams ∧
    scenarioAParams =
      [("model", .str "accounts/fireworks/models/llama-v3p1-8b-instruct"),
       ("prompt", .str "Hello"), ("stream", .bool false),
       ("max_tokens", .num 512)] ∧
    nonstream_completion testConfig none scenarioARequest =
      .ok { endpoint := .completionCreate, api_key := "test-key",
            params := scenarioAParams } :=
  ⟨rfl, rfl, rfl⟩

/-- C9: embeddings always fails with NotImplementedError (the spec's
NotSupportedError); the error return means no provider call is performed. -/
theorem embeddings_always_unsupported :
    ∀ (model_id : String) (contents : List (List ContentItem)),
      embeddings model_id contents = .error PyError.notImplementedError :=
  fun _ _ => rfl

/-- C10: a streaming request returns the lazy sequence without raising — the
entry point yields a `lazySeq` whose first-iteration behaviour equals the whole
non-streaming pipeline, so missing-credential, unsupported-media and
unknown-format errors surface only when the sequence is first iterated — while
the non-streaming paths run that pipeline (and raise those errors) at call
time. -/
theorem streaming_defers_errors_to_first_iteration
    (config : FireworksImplConfig) (provider_data : Option ProviderData)
    (rc : CompletionRequest) (rch : ChatCompletionRequest) :
    (rc.stream = true → ∃ f,
      completion_entry config provider_data rc = .lazySeq f ∧
      f () = nonstream_completion config provider_data rc) ∧
    (rch.stream = true → ∃ g,
      chat_completion_entry config provider_data rch = .lazySeq g ∧
      g () = nonstream_chat_completion config provider_data rch) ∧
    (rc.stream = false → completion_entry config provider_data rc =
      .immediate (nonstream_completion config provider_data rc)) ∧
    (rch.stream = false → chat_completion_entry config provider_data rch =
      .immediate (nonstream_chat_completion config provider_data rch)) := by
  refine ⟨fun h => ⟨stream_completion config provider_data rc, ?_, rfl⟩,
    fun h => ⟨stream_chat_completion config provider_data rch, ?_, rfl⟩,
    fun h => ?_, fun h => ?_⟩ <;>
    simp [completion_entry, chat_completion_entry, h]

/-- Witness for C10: with no credentials configured, the streaming completion
entry still hands back a lazy sequence, and forcing it yields exactly the
missing-credential error the non-streaming path raises eagerly. -/
theorem streaming_defers_errors_to_first_iteration_witness :
    ∃ f, completion_entry unauthConfig none streamingHelloRequest = .lazySeq f ∧
      f () = nonstream_completion unauthConfig none streamingHelloRequest :=
  (streaming_defers_errors_to_first_iteration unauthConfig none
    streamingHelloRequest streamingChatRequest).1 rfl

end FireworksAdapter
